import Mathlib

/-!
Shallow embedding of the paper-search / PDF-download pipeline of this
repository (`src/paper_search.py`, `src/pdf_downloader.py`), together with
theorems settling the specification's claims about it.

Conventions: Python strings are modelled as Lean `String`/`List Char`;
the regex classes `\w` and `\s` are modelled at ASCII granularity; absent
dictionary values are `Option`; a caught Python exception is an `Except`
error value; the filesystem of the download directory is a list of
`(filename, size-in-bytes)` pairs; the network is a function from URL to
either a response or a request error.
-/

/-- ASCII model of Python's regex class `\s` (also `str.split`/`str.strip`):
space, tab, newline, carriage return, vertical tab, form feed. -/
def pyIsSpace (c : Char) : Bool :=
  c == ' ' || c == '\t' || c == '\n' || c == '\r' || c == Char.ofNat 11 || c == Char.ofNat 12

/-- ASCII model of the regex class `\w`: letters, digits, underscore. -/
def pyIsWordChar (c : Char) : Bool :=
  c.isAlphanum || c == '_'

/-- Python `str.strip()`: drop leading and trailing whitespace. -/
def pyStrip (s : List Char) : List Char :=
  ((s.dropWhile pyIsSpace).reverse.dropWhile pyIsSpace).reverse

/-- Python `re.sub(r"\s+", repl, s)`: replace every maximal whitespace run by the
single character `repl`.  `prevWs` records whether the previous character
belonged to a run already replaced. -/
def collapseWsAux (repl : Char) : List Char → Bool → List Char
  | [], _ => []
  | c :: rest, prevWs =>
    if pyIsSpace c then
      if prevWs then collapseWsAux repl rest true
      else repl :: collapseWsAux repl rest true
    else c :: collapseWsAux repl rest false

/-- Python `str.split()` with no arguments: split on whitespace runs, producing no
empty parts; `acc` is the current word, reversed. -/
def pySplitWsAux : List Char → List Char → List (List Char)
  | [], acc => if acc.isEmpty then [] else [acc.reverse]
  | c :: rest, acc =>
    if pyIsSpace c then
      if acc.isEmpty then pySplitWsAux rest []
      else acc.reverse :: pySplitWsAux rest []
    else pySplitWsAux rest (c :: acc)

def pySplitWs (s : List Char) : List (List Char) :=
  pySplitWsAux s []

/-- Python `" ".join(parts)`. -/
def joinSpace : List (List Char) → List Char
  | [] => []
  | [w] => w
  | w :: rest => w ++ ' ' :: joinSpace rest

/-- Digit part of Python `int(s)`: decimal digits, with single underscores
allowed only between two digits.  `acc` is `some v` once at least one digit
has been read. -/
def pyIntDigits : List Char → Option Nat → Option Nat
  | [], acc => acc
  | c :: rest, acc =>
    if c.isDigit then
      pyIntDigits rest (some ((acc.getD 0) * 10 + (c.toNat - 48)))
    else if c == '_' then
      match acc, rest with
      | some v, d :: _ => if d.isDigit then pyIntDigits rest (some v) else none
      | _, _ => none
    else none

/-- Python `int(s)`: optional surrounding whitespace, optional sign, decimal
digits; `none` models the `ValueError` raised on malformed input. -/
def pyInt (s : String) : Option Int :=
  match pyStrip s.toList with
  | '+' :: rest => (pyIntDigits rest none).map (fun n => (n : Int))
  | '-' :: rest => (pyIntDigits rest none).map (fun n => -(n : Int))
  | rest => (pyIntDigits rest none).map (fun n => (n : Int))

def segStartsAt : List Char → List Char → Bool
  | [], _ => true
  | _ :: _, [] => false
  | a :: as, b :: bs => a == b && segStartsAt as bs

/-- Python substring test `needle in hay` for strings. -/
def containsSeg (needle : List Char) : List Char → Bool
  | [] => needle.isEmpty
  | c :: rest => segStartsAt needle (c :: rest) || containsSeg needle rest

/-- Python `s.startswith(pre)` via character lists (kernel-reducible). -/
def startsWithL (s pre : String) : Bool :=
  segStartsAt pre.toList s.toList

/-- Python `s.endswith(suf)` via character lists (kernel-reducible). -/
def endsWithL (s suf : String) : Bool :=
  segStartsAt suf.toList.reverse s.toList.reverse

/-- Python `s.lower()` (ASCII model) via character lists. -/
def lowerStr (s : String) : String :=
  String.mk (s.toList.map Char.toLower)

/-- The slice `s[:n]` (Python slices strings by code point). -/
def strTake (s : String) (n : Nat) : String :=
  String.mk (s.toList.take n)

/-- Python truthiness of an optional string: absent and empty are falsy. -/
def truthyS : Option String → Bool
  | none => false
  | some s => s != ""

/-- The canonical paper record built by both searchers. -/
structure Paper where
  title : String
  authors : List String
  year : Int
  abstract : String
  pdf_url : Option String
  source : String
deriving Repr, DecidableEq

/-- Characters kept by the second substitution of `PaperSearcher._clean_text`
(regex class `[\w\s\-\.\,\(\)\[\]]`). -/
def cleanKeep (c : Char) : Bool :=
  pyIsWordChar c || pyIsSpace c || c == '-' || c == '.' || c == ',' ||
  c == '(' || c == ')' || c == '[' || c == ']'

/-- Model of `PaperSearcher._clean_text`: strip and collapse whitespace runs to single
spaces, then drop the characters outside `[\w\s\-\.\,\(\)\[\]]`. -/
def _clean_text (t : String) : String :=
  String.mk ((collapseWsAux ' ' (pyStrip t.toList) false).filter cleanKeep)

/-- One `<link>` element of an ArXiv feed entry, as read by the code
(`link.get('type')`, `link.get('href')`). -/
structure ArxLink where
  ltype : Option String
  href : Option String
deriving Repr, DecidableEq

/-- One `<entry>` of the parsed ArXiv XML feed: exactly the fields the code
reads, each `none` when the tag/attribute is missing. -/
structure ArxivEntry where
  titleTag : Option String
  summaryTag : Option String
  authorNames : List (Option String)
  publishedTag : Option String
  links : List ArxLink
  idTag : Option String
deriving Repr, DecidableEq

/-- A caught `requests` failure: `Timeout`, `RequestException`, or any other
`Exception`, each carrying the text used in the error message. -/
inductive ReqErr
  | timeout
  | reqError (s : String)
  | unexpected (s : String)
deriving Repr, DecidableEq

/-- Python `str.split('/')`: split at every slash, keeping empty parts. -/
def splitSlashAux : List Char → List Char → List (List Char)
  | [], acc => [acc.reverse]
  | c :: rest, acc =>
    if c == '/' then acc.reverse :: splitSlashAux rest []
    else splitSlashAux rest (c :: acc)

/-- Model of `id_elem.text.split('/')[-1]` (Python `split` keeps empty parts). -/
def lastSlashSegment (s : String) : String :=
  String.mk ((splitSlashAux s.toList []).getLastD [])

/-- The loop over `entry.find_all('link')`: the `href` of the first link whose
`type` is `application/pdf`. -/
def arxivPdfLink (links : List ArxLink) : Option String :=
  (links.find? (fun l => l.ltype == some "application/pdf")).bind (fun l => l.href)

/-- Publication year: `int(published.text[:4])`, defaulting to 2024 when the
tag is missing or the conversion raises. -/
def arxivYear (publishedTag : Option String) : Int :=
  match publishedTag with
  | none => 2024
  | some s => (pyInt (strTake s 4)).getD 2024

/-- The body of the per-entry loop of `ArxivSearcher.search_papers`:
`none` when the entry is skipped (`year < min_year` or the final
`if title and pdf_url` guard fails). -/
def arxivEntryToPaper (minYear : Int) (e : ArxivEntry) : Option Paper :=
  let title := _clean_text (e.titleTag.getD "")
  let summary := _clean_text (e.summaryTag.getD "")
  let authors := (e.authorNames.filterMap id).map _clean_text
  let year := arxivYear e.publishedTag
  if year < minYear then none
  else
    let linkUrl := arxivPdfLink e.links
    let pdf_url :=
      if truthyS linkUrl then linkUrl
      else
        match e.idTag with
        | some idText => some ("https://arxiv.org/pdf/" ++ lastSlashSegment idText ++ ".pdf")
        | none => linkUrl
    if title != "" && truthyS pdf_url then
      some { title := title, authors := authors, year := year, abstract := summary,
             pdf_url := pdf_url, source := "ArXiv" }
    else none

/-- Model of `ArxivSearcher.search_papers`, over the parsed XML feed; `.error` models a
request failure caught by the outer `try`, yielding the empty list. -/
def ArxivSearcher.search_papers (maxPapers : Nat) (minYear : Int)
    (resp : Except ReqErr (List ArxivEntry)) : List Paper :=
  match resp with
  | .error _ => []
  | .ok entries => (entries.take maxPapers).filterMap (arxivEntryToPaper minYear)

/-- The `year` field of a Semantic Scholar item: missing key (default 2024),
JSON `null`, or an integer. -/
inductive JsonYear
  | absent
  | null
  | val (n : Int)
deriving Repr, DecidableEq

/-- One item of the Semantic Scholar `data` array, with exactly the fields the
code reads.  `openAccessUrl = some u` models an `openAccessPdf` object whose
`url` field is `u`. -/
structure S2Item where
  titleF : Option String
  abstractF : Option String
  yearF : JsonYear
  authorNames : List (Option String)
  openAccessUrl : Option (Option String)
deriving Repr, DecidableEq

/-- The body of the per-item loop of `SemanticScholarSearcher.search_papers`.
A JSON-`null` year makes `year >= self.min_year` raise `TypeError`, which the
per-item handler turns into a skip. -/
def s2ItemToPaper (minYear : Int) (it : S2Item) : Option Paper :=
  match it.yearF with
  | .null => none
  | y =>
    let year : Int := match y with | .val n => n | _ => 2024
    let title := _clean_text (it.titleF.getD "")
    let abstract := _clean_text (it.abstractF.getD "")
    let authors := (it.authorNames.filterMap id).map _clean_text
    let pdf_url : Option String :=
      match it.openAccessUrl with
      | some (some u) => if u != "" then some u else none
      | _ => none
    if title != "" && truthyS pdf_url && decide (minYear ≤ year) then
      some { title := title, authors := authors, year := year, abstract := abstract,
             pdf_url := pdf_url, source := "Semantic Scholar" }
    else none

/-- Model of `SemanticScholarSearcher.search_papers`, over the parsed JSON `data`
array; `.error` models a caught request failure. -/
def SemanticScholarSearcher.search_papers (maxPapers : Nat) (minYear : Int)
    (resp : Except ReqErr (List S2Item)) : List Paper :=
  match resp with
  | .error _ => []
  | .ok items => (items.take maxPapers).filterMap (s2ItemToPaper minYear)

/-- Title normalization used by `MultiSourceSearcher._remove_duplicates`:
lower-case, drop the characters of `[^\w\s]`, then `' '.join(title.split())`
(which also trims leading/trailing whitespace). -/
def simpleTitle (t : String) : String :=
  String.mk (joinSpace (pySplitWs ((t.toList.map Char.toLower).filter
    (fun c => pyIsWordChar c || pyIsSpace c))))

def normTitle (p : Paper) : String :=
  simpleTitle p.title

/-- The loop of `MultiSourceSearcher._remove_duplicates`; `seen` is the
`seen_titles` set (a list used only through membership). -/
def removeDupAux : List Paper → List String → List Paper
  | [], _ => []
  | p :: rest, seen =>
    if seen.contains (normTitle p) then removeDupAux rest seen
    else p :: removeDupAux rest (normTitle p :: seen)

def _remove_duplicates (papers : List Paper) : List Paper :=
  removeDupAux papers []

/-- Stable insertion keeping years descending; model of CPython's stable
`list.sort(key=lambda x: x.get('year', 0), reverse=True)` (Timsort is stable,
and `reverse=True` preserves the order of equal keys). -/
def insertDesc (p : Paper) : List Paper → List Paper
  | [] => [p]
  | q :: rest => if q.year ≤ p.year then p :: q :: rest else q :: insertDesc p rest

def sortYearDesc : List Paper → List Paper
  | [] => []
  | p :: rest => insertDesc p (sortYearDesc rest)

/-- The two provider responses seen by one `MultiSourceSearcher.search_papers`
call. -/
structure MultiEnv where
  arxivResp : Except ReqErr (List ArxivEntry)
  s2Resp : Except ReqErr (List S2Item)

/-- The accumulator `all_papers` after the provider loop: each searcher was
constructed with `max_papers=max_papers//2`, and `extend` appends ArXiv
results before Semantic Scholar results. -/
def multiAllPapers (maxPapers : Nat) (minYear : Int) (env : MultiEnv) : List Paper :=
  ArxivSearcher.search_papers (maxPapers / 2) minYear env.arxivResp ++
  SemanticScholarSearcher.search_papers (maxPapers / 2) minYear env.s2Resp

/-- Model of `MultiSourceSearcher.search_papers`: merge, deduplicate, sort by year
descending (stable), truncate to `max_papers`. -/
def MultiSourceSearcher.search_papers (maxPapers : Nat) (minYear : Int)
    (env : MultiEnv) : List Paper :=
  (sortYearDesc (_remove_duplicates (multiAllPapers maxPapers minYear env))).take maxPapers

/-- The download directory: filenames with their sizes in bytes. -/
abbrev FS := List (String × Nat)

def fsHas (fs : FS) (name : String) : Bool :=
  fs.any (fun e => e.1 == name)

/-- One HTTP response with `2xx` status: the `content-type` header (absent
modelled as `none`) and the body (its length standing for the byte count,
also used as `response.text` for HTML link extraction). -/
structure HttpResp where
  contentTypeHdr : Option String
  body : String
deriving Repr

/-- Environment of one `PDFDownloader` call: the network (URL to response or
caught request error), the HTML link extractor `_extract_pdf_from_html`
(left abstract: its literal source is a Python syntax error, and no claim
depends on its output), `int(time.time())`, and the download directory
name. -/
structure DlEnv where
  net : String → Except ReqErr HttpResp
  extractPdfFromHtml : String → String → Option String
  now : Nat
  dir : String

/-- Characters removed by `re.sub(r'[<>:"/\\|?*]', '', title)`. -/
def illegalFileChar (c : Char) : Bool :=
  c == '<' || c == '>' || c == ':' || c == '"' || c == '/' || c == '\\' ||
  c == '|' || c == '?' || c == '*'

/-- Python `str.rstrip('. ')`. -/
def rstripDotSpace (s : List Char) : List Char :=
  (s.reverse.dropWhile (fun c => c == '.' || c == ' ')).reverse

/-- Model of `PDFDownloader._create_safe_filename` (with `max_length=100`):
drop filename-illegal characters, strip then replace whitespace runs by
underscores, truncate to 100 characters, strip trailing dots/spaces, and
substitute `paper_<int(time.time())>` when the result is empty. -/
def _create_safe_filename (now : Nat) (title : String) : String :=
  let s1 := title.toList.filter (fun c => !(illegalFileChar c))
  let s2 := collapseWsAux '_' (pyStrip s1) false
  let s3 := if s2.length > 100 then s2.take 100 else s2
  let s4 := rstripDotSpace s3
  if s4.isEmpty then "paper_" ++ toString now else String.mk s4

/-- The `<sanitized title>.pdf` filename `download_paper` targets. -/
def targetFilename (env : DlEnv) (p : Paper) : String :=
  _create_safe_filename env.now p.title ++ ".pdf"

/-- The error messages of the three `except` clauses of `download_paper`. -/
def errMsg (title : String) : ReqErr → String
  | .timeout => "Timeout downloading: " ++ strTake title 30 ++ "..."
  | .reqError s => "Download error: " ++ strTake s 50 ++ "..."
  | .unexpected s => "Unexpected error: " ++ strTake s 50 ++ "..."

/-- Model of `'pdf' in content_type or pdf_url.endswith('.pdf')` (negation of the
content-sniffing guard). -/
def pdfIndicated (ct : String) (url : String) : Bool :=
  containsSeg "pdf".toList ct.toList || endsWithL url ".pdf"

/-- Control-flow outcome of `download_paper` up to (but excluding) the write
and size check: missing URL, file already present, a failure with its
message, or a body about to be written to `fname`. -/
inductive Resolved
  | noUrl
  | already (fname : String)
  | failMsg (m : String)
  | content (fname : String) (body : String)
deriving Repr, DecidableEq

/-- Steps of `PDFDownloader.download_paper` before the write: the `pdf_url`
truthiness check, the already-exists short circuit, the GET (with
`raise_for_status` folded into the `Except`), the content-type sniff with
HTML fallback, and the second GET after link extraction.  The second
component counts HTTP requests issued. -/
def resolveDownload (env : DlEnv) (fs : FS) (paper : Paper) : Resolved × Nat :=
  match paper.pdf_url with
  | none => (.noUrl, 0)
  | some u =>
    if u == "" then (.noUrl, 0)
    else if fsHas fs (targetFilename env paper) then (.already (targetFilename env paper), 0)
    else
      match env.net u with
      | .error e => (.failMsg (errMsg paper.title e), 1)
      | .ok resp =>
        if !(pdfIndicated (lowerStr (resp.contentTypeHdr.getD "")) u) then
          if containsSeg "text/html".toList (lowerStr (resp.contentTypeHdr.getD "")).toList then
            match env.extractPdfFromHtml resp.body u with
            | some u2 =>
              if u2 == "" then (.failMsg "Could not find PDF link in HTML", 1)
              else
                match env.net u2 with
                | .error e => (.failMsg (errMsg paper.title e), 2)
                | .ok resp2 => (.content (targetFilename env paper) resp2.body, 2)
            | none => (.failMsg "Could not find PDF link in HTML", 1)
          else (.content (targetFilename env paper) resp.body, 1)
        else (.content (targetFilename env paper) resp.body, 1)

/-- The `(success, file_path, message)` triple returned by `download_paper`. -/
structure DlOutcome where
  success : Bool
  file_path : Option String
  message : String
deriving Repr, DecidableEq

/-- Model of `PDFDownloader.download_paper`: resolve, then write the body and apply the
1024-byte size check (write-then-unlink leaves the directory unchanged).
Returns the outcome, the directory afterwards, and the number of HTTP
requests issued. -/
def download_paper (env : DlEnv) (fs : FS) (paper : Paper) : DlOutcome × FS × Nat :=
  match resolveDownload env fs paper with
  | (.noUrl, n) => (⟨false, none, "No PDF URL provided"⟩, fs, n)
  | (.already fname, n) =>
      (⟨true, some (env.dir ++ "/" ++ fname), "Already exists: " ++ fname⟩, fs, n)
  | (.failMsg m, n) => (⟨false, none, m⟩, fs, n)
  | (.content fname b, n) =>
      if b.length < 1024 then
        (⟨false, none, "Downloaded file too small (probably not a PDF)"⟩, fs, n)
      else
        (⟨true, some (env.dir ++ "/" ++ fname), "Downloaded: " ++ fname⟩,
         (fname, b.length) :: fs, n)

/-- One element of the result list of `download_papers`. -/
structure DlResult where
  paper : Paper
  success : Bool
  file_path : Option String
  message : String
  index : Nat
  total : Nat
deriving Repr, DecidableEq

/-- The `enumerate` loop of `PDFDownloader.download_papers`: `i` is the
0-based loop counter, the directory state is threaded through the downloads,
and the middle component records the `(current, total)` arguments of the
`progress_callback` invocations in order (empty when no callback was
supplied). -/
def downloadPapersAux (env : DlEnv) (total : Nat) (hasCb : Bool) :
    List Paper → Nat → FS → List DlResult × List (Nat × Nat) × FS
  | [], _, fs => ([], [], fs)
  | p :: rest, i, fs =>
    let step := download_paper env fs p
    let r : DlResult :=
      ⟨p, step.1.success, step.1.file_path, step.1.message, i + 1, total⟩
    let next := downloadPapersAux env total hasCb rest (i + 1) step.2.1
    (r :: next.1, (if hasCb then [(i + 1, total)] else []) ++ next.2.1, next.2.2)

/-- Model of `PDFDownloader.download_papers`. -/
def download_papers (env : DlEnv) (hasCb : Bool) (papers : List Paper) (fs : FS) :
    List DlResult × List (Nat × Nat) × FS :=
  downloadPapersAux env papers.length hasCb papers 0 fs

/-- The dictionary returned by `get_download_stats`: the `total_size_mb` and
`files` keys are `none` exactly when the code's early return omits them. -/
structure Stats where
  total_files : Nat
  total_size : Nat
  total_size_mb : Option Rat
  files : Option (List String)
deriving Repr, DecidableEq

/-- Model of `self.download_dir.glob('*.pdf')`: names ending in `.pdf`, excluding
hidden files (glob patterns not starting with a dot never match them). -/
def globPdf (entries : List (String × Nat)) : List (String × Nat) :=
  entries.filter (fun e => endsWithL e.1 ".pdf" && !(startsWithL e.1 "."))

/-- Python `round(q, 2)` modelled exactly on rationals (round half to even at
the second decimal). -/
def pyRound2 (q : Rat) : Rat :=
  let n := q * 100
  let f : Int := n.floor
  let frac := n - (f : Rat)
  let r : Int :=
    if frac < 1 / 2 then f
    else if 1 / 2 < frac then f + 1
    else if f % 2 = 0 then f else f + 1
  (r : Rat) / 100

/-- Model of `PDFDownloader.get_download_stats`: `none` models a download directory
that does not exist (early return with only two keys), `some entries` a
directory holding the listed files. -/
def get_download_stats : Option (List (String × Nat)) → Stats
  | none => ⟨0, 0, none, none⟩
  | some entries =>
    let pdfs := globPdf entries
    let total := (pdfs.map (fun e => e.2)).sum
    ⟨pdfs.length, total, some (pyRound2 ((total : Rat) / (1024 * 1024))),
     some (pdfs.map (fun e => e.1))⟩

/-- CPython tokenization of single-quoted string literals on one source line,
restricted to what line 154 of `pdf_downloader.py` exercises: outside a
literal a quote opens one; inside a literal a backslash always consumes the
next character (also in raw strings, where it cannot escape the closing
quote but does prevent termination); a bare quote closes the literal.  The
result is `false` when a literal is still open at end of line, which CPython
reports as `SyntaxError: unterminated string literal`. -/
def lineScan : List Char → Bool → Bool
  | [], inStr => !inStr
  | '\\' :: _ :: rest, true => lineScan rest true
  | c :: rest, true => lineScan rest (c != '\'')
  | c :: rest, false => lineScan rest (c == '\'')

/-- Line 154 of `src/pdf_downloader.py` (indentation stripped):
the first regex of `_extract_pdf_from_html`'s `pdf_patterns` list. -/
def pdfDownloaderLine154 : List Char :=
  ['r', '\'', 'h', 'r', 'e', 'f', '=', '[', '"', '\\', '\'', ']', '(', '[', '^',
   '"', '\\', '\'', ']', '*', '.', 'p', 'd', 'f', '[', '^', '"', '\\', '\'', ']',
   '*', ')', '[', '"', '\\', '\'', '\'', ']', '\'', ',']

/-- The evidently intended form of the same line, with the stray quote in the
final character class removed. -/
def pdfDownloaderLine154Intended : List Char :=
  ['r', '\'', 'h', 'r', 'e', 'f', '=', '[', '"', '\\', '\'', ']', '(', '[', '^',
   '"', '\\', '\'', ']', '*', '.', 'p', 'd', 'f', '[', '^', '"', '\\', '\'', ']',
   '*', ')', '[', '"', '\\', '\'', ']', '\'', ',']

/-- A concrete downloader environment used by witnesses: every request times
out and HTML extraction finds nothing. -/
def sampleDlEnv : DlEnv :=
  ⟨fun _ => .error .timeout, fun _ _ => none, 0, "downloads"⟩

/-- A concrete paper with no `pdf_url` whose sanitized-title filename is
`b.pdf`. -/
def paperNoUrlExisting : Paper :=
  ⟨"b", [], 2024, "", none, "ArXiv"⟩

/-- A concrete paper titled `b` with a `pdf_url`. -/
def paperWithUrl : Paper :=
  ⟨"b", [], 2024, "", some "http://x/b.pdf", "ArXiv"⟩

/-- A concrete environment returning a 1-byte PDF body for every URL. -/
def smallPdfEnv : DlEnv :=
  ⟨fun _ => .ok ⟨some "application/pdf", "x"⟩, fun _ _ => none, 0, "downloads"⟩

/-- A concrete ArXiv feed entry with a PDF link and a 2024 date. -/
def entryW : ArxivEntry :=
  ⟨some "Deep Learning", none, [], some "2024-01-01",
   [⟨some "application/pdf", some "http://arxiv.org/pdf/1.pdf"⟩], none⟩

/-- A concrete Semantic Scholar item with an open-access PDF and year 2023. -/
def itemW : S2Item :=
  ⟨some "Other Paper", none, .val 2023, [], some (some "http://x/p.pdf")⟩

/-- The paper produced from `entryW`. -/
def paperAW : Paper :=
  ⟨"Deep Learning", [], 2024, "", some "http://arxiv.org/pdf/1.pdf", "ArXiv"⟩

/-- The paper produced from `itemW`. -/
def paperSW : Paper :=
  ⟨"Other Paper", [], 2023, "", some "http://x/p.pdf", "Semantic Scholar"⟩

/-- The claim's title normalization, read literally from the spec sentence:
lower-case, remove the characters that are neither word characters nor
whitespace, and collapse whitespace runs to single spaces — with no
trimming of a leading or trailing run. -/
def claimNormTitle (p : Paper) : String :=
  String.mk (collapseWsAux ' '
    ((p.title.toList.map Char.toLower).filter (fun c => pyIsWordChar c || pyIsSpace c)) false)

/-- First-paper-wins deduplication keyed by `claimNormTitle`, exactly as the
claim words it. -/
def claimDedupAux : List Paper → List String → List Paper
  | [], _ => []
  | p :: rest, seen =>
    if seen.contains (claimNormTitle p) then claimDedupAux rest seen
    else p :: claimDedupAux rest (claimNormTitle p :: seen)

def claimDedup (papers : List Paper) : List Paper :=
  claimDedupAux papers []

/-- A paper whose title starts with a space. -/
def paperSpacedTitle : Paper :=
  ⟨" a", [], 2024, "", none, "ArXiv"⟩

/-- A paper with the same title without the space. -/
def paperBareTitle : Paper :=
  ⟨"a", [], 2024, "", none, "ArXiv"⟩

/-- Keep-first deduplication stated as the claim words it: keep the first
paper for each normalized title, discard every later paper with the same
normalized title; keyed by the code's `normTitle`. -/
def dedupFilter : List Paper → List Paper
  | [] => []
  | p :: rest => p :: dedupFilter (rest.filter (fun q => !(normTitle q == normTitle p)))
termination_by ps => ps.length
decreasing_by simp only [List.length_cons]; exact Nat.lt_succ_of_le (List.length_filter_le _ _)

/-- C1: the spec's policy is that no public operation lets an exception
propagate, but `src/pdf_downloader.py` cannot even be imported: the extra
quote in the character class ending line 154 closes the raw string early and
leaves an unterminated string literal on the line, so loading the module (as
`app.py` does for every downloader operation) raises `SyntaxError` to the
caller.  The same scan accepts the evidently intended line. -/
theorem pdf_downloader_line154_unterminated :
    lineScan pdfDownloaderLine154 false = false ∧
    lineScan pdfDownloaderLine154Intended false = true := by decide

/-- A `resolveDownload` result of `.content` implies the target filename was
the sanitized title and was not yet present in the download directory (the
already-exists short circuit would have fired otherwise). -/
theorem resolve_content_props (env : DlEnv) (fs : FS) (paper : Paper)
    (fname b : String) (n : Nat) :
    resolveDownload env fs paper = (.content fname b, n) →
    fname = targetFilename env paper ∧ fsHas fs fname = false := by
  unfold resolveDownload
  repeat' split
  all_goals intro h
  all_goals (try (exfalso; simp at h; done))
  all_goals (
    simp only [Prod.mk.injEq, Resolved.content.injEq] at h
    obtain ⟨⟨hf, -⟩, -⟩ := h
    subst hf
    simp_all)

/-- C9: a paper whose `pdf_url` is absent or empty makes `download_paper`
return `(False, None, "No PDF URL provided")` before any filename derivation,
filesystem access or HTTP request: the directory is unchanged and zero
requests are issued. -/
theorem download_paper_no_url (env : DlEnv) (fs : FS) (paper : Paper)
    (h : paper.pdf_url = none ∨ paper.pdf_url = some "") :
    download_paper env fs paper = (⟨false, none, "No PDF URL provided"⟩, fs, 0) := by
  unfold download_paper resolveDownload
  rcases h with h | h <;> rw [h] <;> simp

/-- Witness for C9 at a concrete paper with no `pdf_url`. -/
theorem download_paper_no_url_witness :
    download_paper ⟨fun _ => .error .timeout, fun _ _ => none, 0, "downloads"⟩ []
      ⟨"t", [], 2024, "", none, "ArXiv"⟩ =
      (⟨false, none, "No PDF URL provided"⟩, [], 0) :=
  download_paper_no_url ⟨fun _ => .error .timeout, fun _ _ => none, 0, "downloads"⟩ []
    ⟨"t", [], 2024, "", none, "ArXiv"⟩ (Or.inl rfl)

/-- C10: over every environment, directory state and paper, the triple
returned by `download_paper` carries a file path if and only if `success` is
true: both success branches return a concrete path, all failure branches
return `None`. -/
theorem download_paper_success_iff_path (env : DlEnv) (fs : FS) (paper : Paper) :
    (download_paper env fs paper).1.success =
      ((download_paper env fs paper).1.file_path).isSome := by
  unfold download_paper
  rcases resolveDownload env fs paper with ⟨res, n⟩
  cases res
  case noUrl => rfl
  case already => rfl
  case failMsg => rfl
  case content fname body =>
    by_cases hb : body.length < 1024
    · simp [hb]
    · simp [hb]

/-- C6 counterexample: for a paper whose sanitized-title filename `b.pdf`
already exists in the download directory but whose `pdf_url` is absent,
`download_paper` does not return the already-exists success triple the claim
promises; the missing-URL check fires first. -/
theorem already_exists_requires_url_counterexample :
    fsHas [("b.pdf", 2048)] (targetFilename sampleDlEnv paperNoUrlExisting) = true ∧
    download_paper sampleDlEnv [("b.pdf", 2048)] paperNoUrlExisting =
      (⟨false, none, "No PDF URL provided"⟩, [("b.pdf", 2048)], 0) := by
  decide

/-- C6 (amended): for every paper with a present, non-empty `pdf_url` whose
sanitized-title filename already exists in the download directory,
`download_paper` returns `(True, dir/<filename>, "Already exists: <filename>")`,
issues no HTTP request and leaves the directory unchanged. -/
theorem download_paper_already_exists (env : DlEnv) (fs : FS) (paper : Paper) (u : String)
    (hu : paper.pdf_url = some u) (hne : u ≠ "")
    (hex : fsHas fs (targetFilename env paper) = true) :
    download_paper env fs paper =
      (⟨true, some (env.dir ++ "/" ++ targetFilename env paper),
        "Already exists: " ++ targetFilename env paper⟩, fs, 0) := by
  unfold download_paper resolveDownload
  rw [hu]
  simp [hne, hex]

/-- Witness for amended C6 at a directory already holding `b.pdf`. -/
theorem download_paper_already_exists_witness :
    download_paper sampleDlEnv [("b.pdf", 2048)] paperWithUrl =
      (⟨true, some (sampleDlEnv.dir ++ "/" ++ targetFilename sampleDlEnv paperWithUrl),
        "Already exists: " ++ targetFilename sampleDlEnv paperWithUrl⟩,
       [("b.pdf", 2048)], 0) :=
  download_paper_already_exists sampleDlEnv [("b.pdf", 2048)] paperWithUrl "http://x/b.pdf"
    rfl (by decide) (by decide)

/-- C7: whenever `download_paper` reaches the write step with a body of fewer
than 1024 bytes, it returns
`(False, None, "Downloaded file too small (probably not a PDF)")` and the
directory afterwards equals the directory before (the partial file is
unlinked), with no pre-existing file of that name either: no file is left
behind for that paper. -/
theorem download_paper_small_file (env : DlEnv) (fs : FS) (paper : Paper)
    (fname b : String) (n : Nat)
    (hres : resolveDownload env fs paper = (.content fname b, n))
    (hsmall : b.length < 1024) :
    download_paper env fs paper =
      (⟨false, none, "Downloaded file too small (probably not a PDF)"⟩, fs, n) ∧
    fsHas fs fname = false := by
  refine ⟨?_, (resolve_content_props env fs paper fname b n hres).2⟩
  unfold download_paper
  rw [hres]
  simp [hsmall]

/-- Witness for C7: a 1-byte download is rejected and deleted. -/
theorem download_paper_small_file_witness :
    download_paper smallPdfEnv [] paperWithUrl =
      (⟨false, none, "Downloaded file too small (probably not a PDF)"⟩, [], 1) ∧
    fsHas [] "b.pdf" = false :=
  download_paper_small_file smallPdfEnv [] paperWithUrl "b.pdf" "x" 1 (by decide) (by decide)

/-- C8 counterexample: for a download directory that does not exist, the
record returned by `get_download_stats` has no `total_size_mb` entry and no
`files` entry at all (the early return builds only `total_files` and
`total_size`), contradicting the claimed `{total_files:0, total_size_mb:0.0,
files:[]}` shape. -/
theorem stats_missing_dir_omits_keys :
    (get_download_stats none).total_size_mb = none ∧
    (get_download_stats none).files = none :=
  ⟨rfl, rfl⟩

/-- C8 (amended): `get_download_stats` never fails; on a nonexistent download
directory it returns the two-key record `{total_files: 0, total_size: 0}`
(no `total_size_mb` or `files` entries), and on an existing empty directory
it returns the full zero-valued record `{total_files: 0, total_size: 0,
total_size_mb: 0.0, files: []}`. -/
theorem stats_zero_records :
    get_download_stats none = ⟨0, 0, none, none⟩ ∧
    get_download_stats (some []) = ⟨0, 0, some 0, some []⟩ := by
  constructor
  · rfl
  · have hpr : pyRound2 (0 : Rat) = 0 := by
      simp only [pyRound2]
      have h0 : ((0 : Rat)) * 100 = 0 := by norm_num
      rw [h0]
      have hf : Rat.floor (0 : Rat) = 0 := rfl
      rw [hf]
      norm_num
    simp [get_download_stats, globPdf, hpr]

/-- The `enumerate` loop of `download_papers`, characterized: results come
back one per paper in input order, `index` counts up from `i+1`, `total` is
constant, and the callback trace lists `(current, total)` for
`current = i+1, i+2, ...` exactly when a callback was supplied. -/
theorem downloadPapersAux_spec (env : DlEnv) (total : Nat) (hasCb : Bool)
    (ps : List Paper) : ∀ (i : Nat) (fs : FS),
    (downloadPapersAux env total hasCb ps i fs).1.map (fun r => r.paper) = ps ∧
    (downloadPapersAux env total hasCb ps i fs).1.map (fun r => r.index) =
      List.range' (i + 1) ps.length ∧
    (downloadPapersAux env total hasCb ps i fs).1.map (fun r => r.total) =
      List.replicate ps.length total ∧
    (downloadPapersAux env total hasCb ps i fs).2.1 =
      (if hasCb then (List.range' (i + 1) ps.length).map (fun k => (k, total)) else []) := by
  induction ps with
  | nil => intro i fs; simp [downloadPapersAux]
  | cons p rest ih =>
    intro i fs
    obtain ⟨h1, h2, h3, h4⟩ := ih (i + 1) (download_paper env fs p).2.1
    refine ⟨?_, ?_, ?_, ?_⟩
    · simp [downloadPapersAux, h1]
    · simp [downloadPapersAux, h2, List.range'_succ]
    · simp [downloadPapersAux, h3, List.replicate_succ]
    · simp only [downloadPapersAux, h4, List.length_cons, List.range'_succ, List.map_cons]
      cases hasCb <;> simp

/-- C5: `download_papers` over a list of N papers returns exactly N results,
in input order, the i-th carrying `index = i` (1-based) and `total = N`; and
when a progress callback is supplied it is invoked exactly N times, with
`current` taking the strictly increasing values 1..N (paired with the
constant total). -/
theorem download_papers_bookkeeping (env : DlEnv) (hasCb : Bool)
    (papers : List Paper) (fs : FS) :
    (download_papers env hasCb papers fs).1.length = papers.length ∧
    (download_papers env hasCb papers fs).1.map (fun r => r.paper) = papers ∧
    (download_papers env hasCb papers fs).1.map (fun r => r.index) =
      List.range' 1 papers.length ∧
    (download_papers env hasCb papers fs).1.map (fun r => r.total) =
      List.replicate papers.length papers.length ∧
    (download_papers env hasCb papers fs).2.1 =
      (if hasCb then (List.range' 1 papers.length).map (fun k => (k, papers.length))
       else []) := by
  obtain ⟨h1, h2, h3, h4⟩ := downloadPapersAux_spec env papers.length hasCb papers 0 fs
  refine ⟨?_, h1, h2, h3, h4⟩
  have := congrArg List.length h1
  simpa using this

/-- A truthy optional string is present. -/
theorem truthyS_isSome {o : Option String} (h : truthyS o = true) : o.isSome = true := by
  cases o <;> simp [truthyS] at h ⊢

/-- C2: for every query outcome and both provider variants, every paper in
the returned list has a non-empty title, a present `pdf_url`, and
`year >= min_year`: the ArXiv loop skips entries below `min_year` and
appends only under `if title and pdf_url`; the Semantic Scholar loop appends
only under `if title and pdf_url and year >= self.min_year`. -/
theorem searchers_paper_invariant (maxPapers : Nat) (minYear : Int)
    (respA : Except ReqErr (List ArxivEntry)) (respS : Except ReqErr (List S2Item)) :
    (∀ p ∈ ArxivSearcher.search_papers maxPapers minYear respA,
        p.title ≠ "" ∧ p.pdf_url.isSome = true ∧ minYear ≤ p.year) ∧
    (∀ p ∈ SemanticScholarSearcher.search_papers maxPapers minYear respS,
        p.title ≠ "" ∧ p.pdf_url.isSome = true ∧ minYear ≤ p.year) := by
  constructor
  · intro p hp
    rcases respA with e | entries
    · simp [ArxivSearcher.search_papers] at hp
    · simp only [ArxivSearcher.search_papers, List.mem_filterMap] at hp
      obtain ⟨e, -, he⟩ := hp
      simp only [arxivEntryToPaper] at he
      split_ifs at he with hy
      all_goals (try (exfalso; simp at he; done))
      all_goals (
        obtain rfl := Option.some.inj he
        rename_i hg
        rw [Bool.and_eq_true] at hg
        exact ⟨by simpa using hg.1, truthyS_isSome hg.2, by simpa using not_lt.mp hy⟩)
  · intro p hp
    rcases respS with e | items
    · simp [SemanticScholarSearcher.search_papers] at hp
    · simp only [SemanticScholarSearcher.search_papers, List.mem_filterMap] at hp
      obtain ⟨it, -, he⟩ := hp
      simp only [s2ItemToPaper] at he
      split at he
      all_goals (try (exfalso; simp at he; done))
      all_goals (try (split_ifs at he with hg))
      all_goals (try (exfalso; simp at he; done))
      all_goals (
        obtain rfl := Option.some.inj he
        rw [Bool.and_eq_true, Bool.and_eq_true] at hg
        exact ⟨by simpa using hg.1.1, truthyS_isSome hg.1.2,
               by simpa using of_decide_eq_true hg.2⟩)

/-- Witness for C2 at concrete provider responses containing one entry each. -/
theorem searchers_paper_invariant_witness :
    (paperAW.title ≠ "" ∧ paperAW.pdf_url.isSome = true ∧ (2020 : Int) ≤ paperAW.year) ∧
    (paperSW.title ≠ "" ∧ paperSW.pdf_url.isSome = true ∧ (2020 : Int) ≤ paperSW.year) :=
  ⟨(searchers_paper_invariant 10 2020 (.ok [entryW]) (.ok [itemW])).1 paperAW (by decide),
   (searchers_paper_invariant 10 2020 (.ok [entryW]) (.ok [itemW])).2 paperSW (by decide)⟩

/-- C3 counterexample: the code's normalization (`' '.join(title.split())`)
also trims surrounding whitespace, which the claim's normalization does not.
On the titles `" a"` and `"a"` the code discards the second paper, while
under the claim's normalization (`" a"` vs `"a"`) both would be kept. -/
theorem remove_duplicates_counterexample :
    _remove_duplicates [paperSpacedTitle, paperBareTitle] = [paperSpacedTitle] ∧
    claimDedup [paperSpacedTitle, paperBareTitle] = [paperSpacedTitle, paperBareTitle] := by
  decide

/-- The seen-set loop agrees with the keep-first/discard-later formulation on
the papers whose normalized title is not yet seen. -/
theorem removeDupAux_eq_dedupFilter (ps : List Paper) : ∀ (seen : List String),
    removeDupAux ps seen =
      dedupFilter (ps.filter (fun p => !(seen.contains (normTitle p)))) := by
  induction ps with
  | nil => intro seen; simp [removeDupAux, dedupFilter]
  | cons p rest ih =>
    intro seen
    cases hs : seen.contains (normTitle p) with
    | true =>
      rw [removeDupAux, if_pos hs, ih seen,
        List.filter_cons_of_neg (by rw [hs]; exact fun h => nomatch h)]
    | false =>
      rw [removeDupAux, if_neg (by rw [hs]; exact fun h => nomatch h),
        List.filter_cons_of_pos (by rw [hs]; rfl), dedupFilter,
        ih (normTitle p :: seen), List.filter_filter]
      congr 1
      congr 1
      apply List.filter_congr
      intro q hq
      simp only [List.contains_cons]
      cases h1 : normTitle q == normTitle p <;>
        cases h2 : seen.contains (normTitle q) <;> simp [h1, h2]

/-- C3 (amended): `_remove_duplicates` keeps exactly the first paper in
processing order for each normalized title and discards every later paper
with the same normalized title, where the normalization lower-cases,
removes non-word/non-whitespace characters, collapses whitespace runs to
single spaces and also trims leading/trailing whitespace (Python's
`' '.join(title.split())`). -/
theorem remove_duplicates_keeps_first (papers : List Paper) :
    _remove_duplicates papers = dedupFilter papers := by
  rw [_remove_duplicates, removeDupAux_eq_dedupFilter]
  congr 1
  simp

/-- Membership: `insertDesc` inserts the new paper and keeps everything else. -/
theorem mem_insertDesc {x p : Paper} {l : List Paper} :
    x ∈ insertDesc p l ↔ x = p ∨ x ∈ l := by
  induction l with
  | nil => simp [insertDesc]
  | cons q rest ih =>
    simp only [insertDesc]
    split
    · simp
    · simp only [List.mem_cons, ih]
      tauto

/-- Sortedness: `insertDesc` preserves the descending-year pairwise order. -/
theorem pairwise_insertDesc {p : Paper} {l : List Paper}
    (hl : l.Pairwise (fun a b => b.year ≤ a.year)) :
    (insertDesc p l).Pairwise (fun a b => b.year ≤ a.year) := by
  induction l with
  | nil => simp [insertDesc]
  | cons q rest ih =>
    rw [List.pairwise_cons] at hl
    obtain ⟨hq, hrest⟩ := hl
    simp only [insertDesc]
    split
    · rename_i hy
      refine List.Pairwise.cons ?_ (List.Pairwise.cons hq hrest)
      intro x hx
      rcases List.mem_cons.mp hx with rfl | hx'
      · exact hy
      · exact le_trans (hq x hx') hy
    · rename_i hy
      refine List.Pairwise.cons ?_ (ih hrest)
      intro x hx
      rcases mem_insertDesc.mp hx with rfl | hx'
      · exact le_of_lt (not_le.mp hy)
      · exact hq x hx'

/-- The output of the stable sort is in descending year order. -/
theorem sortYearDesc_pairwise (l : List Paper) :
    (sortYearDesc l).Pairwise (fun a b => b.year ≤ a.year) := by
  induction l with
  | nil => simp [sortYearDesc]
  | cons p rest ih =>
    rw [sortYearDesc]
    exact pairwise_insertDesc ih

/-- Restricting to a single year, `insertDesc` behaves like `cons`: the
inserted paper lands before every equal-year paper already present, and two
papers of different years never both survive the year filter. -/
theorem filter_insertDesc (p : Paper) (l : List Paper) (y : Int) :
    (insertDesc p l).filter (fun q => q.year == y) =
      (p :: l).filter (fun q => q.year == y) := by
  induction l with
  | nil => rfl
  | cons q rest ih =>
    simp only [insertDesc]
    split
    · rfl
    · rename_i hy
      by_cases hfp : (p.year == y) = true <;> by_cases hfq : (q.year == y) = true
      all_goals (try (exfalso
                      rw [beq_iff_eq] at hfp hfq
                      exact hy (by omega)
                      done))
      all_goals simp [List.filter_cons, hfp, hfq, ih]

/-- Stability of the sort: the subsequence of papers of any fixed year is
unchanged by `sortYearDesc`. -/
theorem filter_sortYearDesc (l : List Paper) (y : Int) :
    (sortYearDesc l).filter (fun q => q.year == y) =
      l.filter (fun q => q.year == y) := by
  induction l with
  | nil => rfl
  | cons p rest ih =>
    rw [sortYearDesc, filter_insertDesc]
    simp only [List.filter_cons]
    rw [ih]

/-- Filtering a `take` yields a prefix of the filtered list, expressed with
`take` of the appropriate length. -/
theorem filter_take_eq {α : Type} (f : α → Bool) :
    ∀ (l : List α) (n : Nat),
      (l.take n).filter f = (l.filter f).take ((l.take n).filter f).length := by
  intro l
  induction l with
  | nil => intro n; simp
  | cons c rest ih =>
    intro n
    cases n with
    | zero => simp
    | succ m =>
      simp only [List.take_succ_cons, List.filter_cons]
      by_cases hc : f c = true
      · simp only [hc, eq_self_iff_true, if_true, List.length_cons, List.take_succ_cons]
        congr 1
        exact ih m
      · simp only [hc, if_false]
        exact ih m

/-- Taking as many elements as a `take` already has is the same `take`. -/
theorem take_length_take {α : Type} (l : List α) (k : Nat) :
    l.take ((l.take k).length) = l.take k := by
  rw [List.take_eq_take]
  simp [List.length_take]

/-- C4: for every query outcome, `MultiSourceSearcher.search_papers` returns
a list sorted by year descending; within each year the papers keep their
relative order from the deduplication step (the year-y subsequence of the
output is a prefix of the year-y subsequence of the deduplicated list); and
the output length is at most `max_papers`. -/
theorem multi_search_sorted_stable_bounded (maxPapers : Nat) (minYear : Int)
    (env : MultiEnv) :
    (MultiSourceSearcher.search_papers maxPapers minYear env).Pairwise
        (fun a b => b.year ≤ a.year) ∧
    (∀ y : Int,
        (MultiSourceSearcher.search_papers maxPapers minYear env).filter
            (fun p => p.year == y) =
          ((_remove_duplicates (multiAllPapers maxPapers minYear env)).filter
              (fun p => p.year == y)).take
            (((MultiSourceSearcher.search_papers maxPapers minYear env).filter
                (fun p => p.year == y)).length)) ∧
    (MultiSourceSearcher.search_papers maxPapers minYear env).length ≤ maxPapers := by
  refine ⟨?_, ?_, ?_⟩
  · exact List.Pairwise.sublist (List.take_sublist _ _) (sortYearDesc_pairwise _)
  · intro y
    simp only [MultiSourceSearcher.search_papers]
    rw [filter_take_eq, filter_sortYearDesc]
    exact (take_length_take _ _).symm
  · simp only [MultiSourceSearcher.search_papers]
    exact List.length_take_le _ _
